import Mathlib

/-!
# Verification of the two-service user-management demo

A shallow embedding of `backend_service.py` (the User Store Service) and
`frontend_service.py` (the Dashboard Service), with theorems settling the
behavioural claims of the specification.

The backend keeps its users in a Python `dict` keyed by the user id; a
`dict` is an insertion-ordered mapping, which we embed as an association
list `List (String × User)` whose insert replaces an existing binding in
place and appends a new one at the end.  A parsed JSON request body is
embedded as `Option Body`, where `Body` is an association list of fields:
`none` stands for a missing/unparseable body (`request.get_json()`
returning `None`) and `some []` for a parsed empty object, so the Python
truthiness test `if not data` becomes "`none` or empty list".

Timestamps (`datetime.utcnow().isoformat()`) and freshly generated ids
(`str(uuid.uuid4())`) are nondeterministic inputs of the handlers, so the
embedded handlers take them as explicit arguments.
-/

namespace Backend

/-- A user record, as stored in `users_db`.  `updated_at` is absent until
the first successful `PUT`. -/
structure User where
  id : String
  name : String
  email : String
  role : String
  created_at : String
  updated_at : Option String := none
  deriving Repr, DecidableEq

/-- The in-memory store: an insertion-ordered mapping from id to `User`. -/
abbrev Store := List (String × User)

/-- A parsed JSON object body: an association list of string fields. -/
abbrev Body := List (String × String)

/-- Membership test `k in data` on a parsed body (Python `in` on a dict). -/
def Body.hasField (data : Body) (k : String) : Bool :=
  data.any (fun p => p.1 == k)

/-- Field access `data[k]` / `data.get(k)` on a parsed body. -/
def Body.getField (data : Body) (k : String) : Option String :=
  (data.find? (fun p => p.1 == k)).map (fun p => p.2)

/-- Membership test `user_id in users_db` (Python `in` on the dict). -/
def Store.hasKey (db : Store) (k : String) : Bool :=
  db.any (fun p => p.1 == k)

/-- Lookup `users_db[user_id]` as a partial operation. -/
def Store.lookup (db : Store) (k : String) : Option User :=
  (db.find? (fun p => p.1 == k)).map (fun p => p.2)

/-- Assignment `users_db[user_id] = u`: replace the binding in place when
the key exists, otherwise append it (Python dict insertion order). -/
def Store.insert (db : Store) (k : String) (u : User) : Store :=
  if db.hasKey k then
    db.map (fun p => if p.1 == k then (k, u) else p)
  else
    (db : List (String × User)) ++ [(k, u)]

/-- Removal `users_db.pop(user_id)`: drop the binding for `k`. -/
def Store.erase (db : Store) (k : String) : Store :=
  db.filter (fun p => !(p.1 == k))

/-- Size `len(users_db)`. -/
def Store.count (db : Store) : Nat :=
  db.length

/-- The seed store of `backend_service.py` (module-level `users_db`). -/
def users_db : Store :=
  [ ("1", { id := "1", name := "John Doe", email := "john@example.com",
            role := "admin", created_at := "2025-01-01T10:00:00Z" }),
    ("2", { id := "2", name := "Jane Smith", email := "jane@example.com",
            role := "user", created_at := "2025-01-02T11:00:00Z" }) ]

/-- A JSON response body of the backend, one constructor per shape the
service can serialize. -/
inductive Resp where
  | err (msg : String)
  | user (u : User)
  | deleted (msg : String) (u : User)
  | users (list : List User) (count : Nat)
  deriving Repr, DecidableEq

/-- Handler for `GET /api/users`. -/
def get_users (db : Store) : Resp × Nat :=
  (.users (db.map (fun p => p.2)) db.count, 200)

/-- Handler for `GET /api/users/<user_id>`. -/
def get_user (db : Store) (user_id : String) : Resp × Nat :=
  match db.lookup user_id with
  | none => (.err "User not found", 404)
  | some u => (.user u, 200)

/-- The first field of `["name", "email"]` missing from `data`, if any
(the validation loop of `create_user`). -/
def firstMissing (data : Body) : Option String :=
  (["name", "email"]).find? (fun f => !(data.hasField f))

/-- The `new_user` record built by `create_user`: the request values for
`name` and `email`, the request `role` defaulted to `"user"` when absent,
the fresh `user_id`, and `created_at` stamped to `now`. -/
def new_user (data : Body) (user_id now : String) : User :=
  { id := user_id,
    name := (data.getField "name").getD "",
    email := (data.getField "email").getD "",
    role := (data.getField "role").getD "user",
    created_at := now }

/-- Handler for `POST /api/users`.  `data?` is the parsed body, `user_id` the freshly
generated `str(uuid.uuid4())`, `now` the `datetime.utcnow().isoformat()`
timestamp.  Returns the HTTP response together with the store after the
request. -/
def create_user (db : Store) (data? : Option Body) (user_id now : String) :
    (Resp × Nat) × Store :=
  match data? with
  | none => ((.err "No data provided", 400), db)
  | some data =>
    if data.isEmpty then
      ((.err "No data provided", 400), db)
    else
      match firstMissing data with
      | some field => ((.err ("Missing required field: " ++ field), 400), db)
      | none =>
        ((.user (new_user data user_id now), 201),
         db.insert user_id (new_user data user_id now))

/-- The field-overwrite loop of `update_user`: for each of `name`,
`email`, `role` present in the body, replace the stored value; then stamp
`updated_at`. -/
def applyUpdate (u : User) (data : Body) (now : String) : User :=
  let u := match data.getField "name" with
           | some v => { u with name := v } | none => u
  let u := match data.getField "email" with
           | some v => { u with email := v } | none => u
  let u := match data.getField "role" with
           | some v => { u with role := v } | none => u
  { u with updated_at := some now }

/-- Handler for `PUT /api/users/<user_id>`. -/
def update_user (db : Store) (user_id : String) (data? : Option Body)
    (now : String) : (Resp × Nat) × Store :=
  match db.lookup user_id with
  | none => ((.err "User not found", 404), db)
  | some u =>
    match data? with
    | none => ((.err "No data provided", 400), db)
    | some data =>
      if data.isEmpty then
        ((.err "No data provided", 400), db)
      else
        let u := applyUpdate u data now
        ((.user u, 200), db.insert user_id u)

/-- Handler for `DELETE /api/users/<user_id>`. -/
def delete_user (db : Store) (user_id : String) : (Resp × Nat) × Store :=
  match db.lookup user_id with
  | none => ((.err "User not found", 404), db)
  | some u =>
    ((.deleted "User deleted successfully" u, 200), db.erase user_id)

end Backend

namespace Backend

/-- An abstract mutating request against the store, for reasoning about
sequences of operations (`POST`, `PUT`, `DELETE`). -/
inductive Op where
  | create (data? : Option Body) (user_id now : String)
  | update (user_id : String) (data? : Option Body) (now : String)
  | delete (user_id : String)
  deriving Repr, DecidableEq

/-- The store after one request. -/
def applyOp (db : Store) : Op → Store
  | .create data? user_id now => (create_user db data? user_id now).2
  | .update user_id data? now => (update_user db user_id data? now).2
  | .delete user_id => (delete_user db user_id).2

/-- The store after a sequence of requests. -/
def run (db : Store) : List Op → Store
  | [] => db
  | op :: ops => run (applyOp db op) ops

/-- The uuid-freshness environment assumption of `str(uuid.uuid4())` for
one request: a `create` draws an id distinct from every id in the store
at the moment it runs. -/
def freshOk (db : Store) : Op → Bool
  | .create _ user_id _ => !(db.hasKey user_id)
  | _ => true

/-- Every `create` in the sequence draws a uuid distinct from every id in
the store at the moment it runs. -/
def freshRun (db : Store) : List Op → Bool
  | [] => true
  | op :: ops => freshOk db op && freshRun (applyOp db op) ops

/-- The key `k` is bound in the store initially and after every prefix of
the sequence ("the user remains in the store"). -/
def presentThrough (db : Store) (ops : List Op) (k : String) : Bool :=
  match ops with
  | [] => db.hasKey k
  | op :: ops => db.hasKey k && presentThrough (applyOp db op) ops k

end Backend

/-!
## The Dashboard Service (`frontend_service.py`)

The dashboard's outbound HTTP calls (`requests.get/post/delete` with
`timeout=5` followed by `raise_for_status()`) are nondeterministic
network events; we embed one call's outcome as either a transport
failure (connection error or timeout, both raising a
`RequestException` before any response exists) or a completed HTTP
response carrying a status code, a parsed JSON body, and the text that
`str(e)` would produce for the `HTTPError` raised by
`raise_for_status()` on that response.  `raise_for_status()` raises
exactly for status codes in `[400, 600)`.
-/

namespace Frontend

open Backend (User Store Resp)

/-- The `service_info` object of the backend's `GET /api/stats` body. -/
structure ServiceInfo where
  name : String
  version : String
  environment : String
  deriving Repr, DecidableEq

/-- The backend's `GET /api/stats` body. -/
structure Stats where
  total_users : Nat
  service_info : ServiceInfo
  timestamp : String
  deriving Repr, DecidableEq

/-- A JSON payload observed by the dashboard: any backend body shape. -/
inductive Payload where
  | err (msg : String)
  | user (u : User)
  | deleted (msg : String) (u : User)
  | users (list : List User) (count : Nat)
  | stats (s : Stats)
  | health (status service timestamp version : String)
  deriving Repr, DecidableEq

/-- The network-level outcome of one outbound call. -/
inductive HttpOutcome where
  | failure (excText : String)
  | response (status : Nat) (body : Payload) (excText : String)
  deriving Repr, DecidableEq

/-- Helper `call_backend_api`: transport failures and `raise_for_status()`
errors are both caught and collapsed to `({"error": str(e)}, 500)`;
otherwise the parsed body and real status are returned. -/
def call_backend_api : HttpOutcome → Payload × Nat
  | .failure excText => (.err excText, 500)
  | .response status body excText =>
    if 400 ≤ status ∧ status < 600 then (.err excText, 500)
    else (body, status)

/-- Default-read `response.get(\x27users\x27, [])` of the users field. -/
def getUsersField : Payload → List User
  | .users l _ => l
  | _ => []

/-- Default-read `response.get(\x27error\x27, \x27Unknown error\x27)`. -/
def getErrorField : Payload → String
  | .err msg => msg
  | _ => "Unknown error"

/-- What `GET /` passes to `render_template_string`; rendering itself
always succeeds, and Flask serves the rendered page with status 200. -/
structure DashboardPage where
  users : List User
  stats : Option Stats
  backend_status : String
  frontend_status : String
  message : Option String
  message_type : String
  deriving Repr, DecidableEq

/-- Handler for `GET /` (`dashboard`): three sequential backend calls, each degraded
to a default on non-200; the page renders regardless. -/
def dashboard (usersCall statsCall healthCall : HttpOutcome)
    (message : Option String) (mtype : Option String) : DashboardPage × Nat :=
  let ru := call_backend_api usersCall
  let users := if ru.2 == 200 then getUsersField ru.1 else []
  let rs := call_backend_api statsCall
  let stats := if rs.2 == 200 then
                 match rs.1 with
                 | .stats s => some s
                 | _ => none
               else none
  let rh := call_backend_api healthCall
  let backend_status := if rh.2 == 200 then "🟢 Online" else "🔴 Offline"
  (⟨users, stats, backend_status, "🟢 Online", message, mtype.getD "success"⟩, 200)

/-- A redirect to `/` carrying a flash message (`redirect(url_for(…))`). -/
structure Redirect where
  location : String
  message : String
  message_type : String
  deriving Repr, DecidableEq

/-- Handler for `POST /add_user`: forward the form as a backend create
call, then redirect with a success or danger flash message. -/
def add_user (name _email _role : String) (outcome : HttpOutcome) : Redirect :=
  let r := call_backend_api outcome
  if r.2 == 201 then
    ⟨"/", "User \x27" ++ name ++ "\x27 added successfully!", "success"⟩
  else
    ⟨"/", "Failed to add user: " ++ getErrorField r.1, "danger"⟩

/-- Handler for `GET /delete_user/<user_id>`: forward as a backend delete
call, then redirect with a success or danger flash message. -/
def delete_user (outcome : HttpOutcome) : Redirect :=
  let r := call_backend_api outcome
  if r.2 == 200 then
    ⟨"/", "User deleted successfully!", "success"⟩
  else
    ⟨"/", "Failed to delete user: " ++ getErrorField r.1, "danger"⟩

/-- Whether `sub` occurs as a contiguous substring of `s`. -/
def containsSub (s sub : String) : Bool :=
  decide (sub.data <:+: s.data)

end Frontend

/-!
## Dictionary lemmas

Facts about the association-list embedding of a Python `dict`, shared by
the claim theorems below.
-/

namespace Backend

theorem Store.lookup_nil (k : String) : Store.lookup [] k = none := rfl

theorem Store.lookup_cons (a : String) (w : User) (l : Store) (k : String) :
    Store.lookup ((a, w) :: l) k
      = if a = k then some w else Store.lookup l k := by
  by_cases h : a = k <;> simp [Store.lookup, List.find?_cons, h]

theorem Store.hasKey_cons (a : String) (w : User) (l : Store) (k : String) :
    Store.hasKey ((a, w) :: l) k = ((a == k) || Store.hasKey l k) := by
  simp [Store.hasKey]

theorem Body.hasField_of_getField {data : Body} {k v : String}
    (h : data.getField k = some v) : data.hasField k = true := by
  unfold Body.getField at h
  unfold Body.hasField
  rcases Option.map_eq_some'.1 h with ⟨p, hp, hv⟩
  have hpred := List.find?_some hp
  exact List.any_eq_true.2 ⟨p, List.mem_of_find?_eq_some hp, hpred⟩

theorem Store.hasKey_of_lookup {db : Store} {k : String} {u : User}
    (h : db.lookup k = some u) : db.hasKey k = true := by
  unfold Store.lookup at h
  unfold Store.hasKey
  rcases Option.map_eq_some'.1 h with ⟨p, hp, hv⟩
  have hpred := List.find?_some hp
  exact List.any_eq_true.2 ⟨p, List.mem_of_find?_eq_some hp, hpred⟩

theorem Store.find?_eq_none_of_hasKey {db : Store} {k : String}
    (h : db.hasKey k = false) :
    List.find? (fun p => p.1 == k) db = none := by
  refine List.find?_eq_none.2 (fun p hp hpk => ?_)
  have : Store.hasKey db k = true := List.any_eq_true.2 ⟨p, hp, hpk⟩
  rw [h] at this
  exact Bool.false_ne_true this

theorem Store.lookup_eq_none {db : Store} {k : String}
    (h : db.hasKey k = false) : db.lookup k = none := by
  unfold Store.lookup
  rw [Store.find?_eq_none_of_hasKey h, Option.map_none']

theorem Store.lookup_append_of_hasKey {db : Store} (l : Store) {k : String}
    (h : db.hasKey k = true) :
    Store.lookup (db ++ l) k = db.lookup k := by
  unfold Store.lookup
  rw [List.find?_append]
  rcases List.any_eq_true.1 h with ⟨p, hp, hpk⟩
  have hsome : (db.find? (fun p => p.1 == k)).isSome :=
    List.find?_isSome.2 ⟨p, hp, hpk⟩
  rcases Option.isSome_iff_exists.1 hsome with ⟨q, hq⟩
  rw [hq]
  rfl

theorem Store.lookup_append_fresh {db : Store} {k : String} (u : User)
    (h : db.hasKey k = false) :
    Store.lookup (db ++ [(k, u)]) k = some u := by
  unfold Store.lookup
  rw [List.find?_append, Store.find?_eq_none_of_hasKey h]
  simp [List.find?_cons, Option.or]

theorem Store.lookup_append_single_ne (db : Store) {k : String} (u : User)
    {k' : String} (h : k' ≠ k) :
    Store.lookup (db ++ [(k, u)]) k' = db.lookup k' := by
  unfold Store.lookup
  rw [List.find?_append]
  have hkk' : ¬ (k = k') := fun e => h e.symm
  have hne : List.find? (fun p => p.1 == k') [(k, u)] = none := by
    simp [List.find?_cons, hkk']
  rw [hne]
  cases db.find? (fun p => p.1 == k') <;> rfl

theorem Store.lookup_mapReplace_self (db : Store) (k : String) (u : User)
    (h : db.hasKey k = true) :
    Store.lookup (db.map (fun p => if p.1 == k then (k, u) else p)) k
      = some u := by
  induction db with
  | nil => exact absurd h (by simp [Store.hasKey])
  | cons p l ih =>
    obtain ⟨a, w⟩ := p
    simp only [List.map_cons]
    by_cases hak : a = k
    · rw [if_pos (show ((a, w).1 == k) = true by simp [hak])]
      rw [Store.lookup_cons, if_pos rfl]
    · rw [if_neg (show ¬ (((a, w).1 == k) = true) by simp [hak])]
      rw [Store.lookup_cons, if_neg hak]
      exact ih (by simpa [Store.hasKey_cons, hak] using h)

theorem Store.lookup_mapReplace_ne (db : Store) {k : String} (u : User)
    {k' : String} (h : k' ≠ k) :
    Store.lookup (db.map (fun p => if p.1 == k then (k, u) else p)) k'
      = db.lookup k' := by
  have hkk' : ¬ (k = k') := fun e => h e.symm
  induction db with
  | nil => simp
  | cons p l ih =>
    obtain ⟨a, w⟩ := p
    simp only [List.map_cons]
    by_cases hak : a = k
    · rw [if_pos (show ((a, w).1 == k) = true by simp [hak])]
      rw [Store.lookup_cons, Store.lookup_cons, if_neg hkk',
        if_neg (show ¬ (a = k') by rw [hak]; exact hkk')]
      exact ih
    · rw [if_neg (show ¬ (((a, w).1 == k) = true) by simp [hak])]
      rw [Store.lookup_cons, Store.lookup_cons]
      by_cases hak' : a = k'
      · rw [if_pos hak', if_pos hak']
      · rw [if_neg hak', if_neg hak']
        exact ih

theorem Store.lookup_insert_self (db : Store) (k : String) (u : User) :
    (db.insert k u).lookup k = some u := by
  unfold Store.insert
  by_cases h : db.hasKey k
  · rw [if_pos h]
    exact Store.lookup_mapReplace_self db k u h
  · rw [if_neg h]
    exact Store.lookup_append_fresh u (by simpa using h)

theorem Store.lookup_insert_ne (db : Store) {k : String} (u : User)
    {k' : String} (h : k' ≠ k) :
    (db.insert k u).lookup k' = db.lookup k' := by
  unfold Store.insert
  by_cases hk : db.hasKey k
  · rw [if_pos hk]
    exact Store.lookup_mapReplace_ne db u h
  · rw [if_neg hk]
    exact Store.lookup_append_single_ne db u h

theorem Store.lookup_erase_self (db : Store) (k : String) :
    (db.erase k).lookup k = none := by
  unfold Store.erase Store.lookup
  have hnone : List.find? (fun p => p.1 == k)
      (db.filter (fun p => !(p.1 == k))) = none := by
    refine List.find?_eq_none.2 (fun p hp hpk => ?_)
    have := (List.mem_filter.1 hp).2
    simp [hpk] at this
  rw [hnone, Option.map_none']

theorem Store.lookup_erase_ne (db : Store) {k k' : String} (h : k' ≠ k) :
    (db.erase k).lookup k' = db.lookup k' := by
  unfold Store.erase
  induction db with
  | nil => simp
  | cons p l ih =>
    obtain ⟨a, w⟩ := p
    simp only [List.filter_cons]
    by_cases hak : a = k
    · rw [if_neg (show ¬ ((!((a, w).1 == k)) = true) by simp [hak])]
      rw [Store.lookup_cons, if_neg (show ¬ (a = k') by
        rw [hak]; exact fun e => h e.symm)]
      exact ih
    · rw [if_pos (show (!((a, w).1 == k)) = true by simp [hak])]
      rw [Store.lookup_cons, Store.lookup_cons]
      by_cases hak' : a = k'
      · rw [if_pos hak', if_pos hak']
      · rw [if_neg hak', if_neg hak']
        exact ih

end Backend

/-!
## Handler lemmas

Shared facts about the embedded handlers.
-/

namespace Backend

theorem applyUpdate_id (u : User) (data : Body) (now : String) :
    (applyUpdate u data now).id = u.id := by
  unfold applyUpdate
  cases data.getField "name" <;> cases data.getField "email" <;>
    cases data.getField "role" <;> rfl

theorem applyUpdate_created_at (u : User) (data : Body) (now : String) :
    (applyUpdate u data now).created_at = u.created_at := by
  unfold applyUpdate
  cases data.getField "name" <;> cases data.getField "email" <;>
    cases data.getField "role" <;> rfl

theorem applyUpdate_updated_at (u : User) (data : Body) (now : String) :
    (applyUpdate u data now).updated_at = some now := by
  unfold applyUpdate
  cases data.getField "name" <;> cases data.getField "email" <;>
    cases data.getField "role" <;> rfl

theorem Store.lookup_isSome_of_hasKey {db : Store} {k : String}
    (h : db.hasKey k = true) : (db.lookup k).isSome = true := by
  unfold Store.lookup
  rcases List.any_eq_true.1 h with ⟨p, hp, hpk⟩
  have hsome : (db.find? (fun p => p.1 == k)).isSome :=
    List.find?_isSome.2 ⟨p, hp, hpk⟩
  rcases Option.isSome_iff_exists.1 hsome with ⟨q, hq⟩
  rw [hq]
  rfl

theorem create_user_db_cases (db : Store) (data? : Option Body)
    (user_id now : String) :
    (create_user db data? user_id now).2 = db
    ∨ ∃ u, (create_user db data? user_id now).2 = db.insert user_id u := by
  cases data? with
  | none => exact .inl rfl
  | some data =>
    unfold create_user
    by_cases hd : data.isEmpty
    · exact .inl (by simp [hd])
    · cases hfm : firstMissing data with
      | some f => exact .inl (by simp [hd, hfm])
      | none => exact .inr ⟨new_user data user_id now, by simp [hd, hfm]⟩

theorem update_user_db_cases (db : Store) (user_id : String)
    (data? : Option Body) (now : String) :
    (update_user db user_id data? now).2 = db
    ∨ ∃ u data, db.lookup user_id = some u
        ∧ (update_user db user_id data? now).2
            = db.insert user_id (applyUpdate u data now) := by
  unfold update_user
  cases hu : db.lookup user_id with
  | none => exact .inl rfl
  | some u =>
    cases data? with
    | none => exact .inl rfl
    | some data =>
      by_cases hd : data.isEmpty
      · exact .inl (by simp [hd])
      · exact .inr ⟨u, data, rfl, by simp [hd]⟩

theorem delete_user_db_cases (db : Store) (user_id : String) :
    (delete_user db user_id).2 = db
    ∨ (delete_user db user_id).2 = db.erase user_id := by
  unfold delete_user
  cases db.lookup user_id with
  | none => exact .inl rfl
  | some u => exact .inr rfl

theorem freshOk_create {db : Store} {data? : Option Body}
    {user_id now : String} (h : freshOk db (.create data? user_id now) = true) :
    db.hasKey user_id = false := by
  simpa [freshOk] using h

/-- Frame property of a single request: a key bound both before and after
the request keeps its `created_at` and its `id`, granted that a `create`
draws a fresh uuid. -/
theorem lookup_applyOp_frame (db : Store) (op : Op) (k : String)
    (hf : freshOk db op = true)
    (hk : db.hasKey k = true)
    (hk' : (applyOp db op).hasKey k = true) :
    ((applyOp db op).lookup k).map User.created_at
        = (db.lookup k).map User.created_at
    ∧ ((applyOp db op).lookup k).map User.id = (db.lookup k).map User.id := by
  cases op with
  | create data? user_id now =>
    rcases create_user_db_cases db data? user_id now with hdb | ⟨u, hdb⟩
    · rw [show applyOp db (.create data? user_id now)
          = (create_user db data? user_id now).2 from rfl, hdb]
      exact ⟨rfl, rfl⟩
    · have hfresh : db.hasKey user_id = false := freshOk_create hf
      have hne : k ≠ user_id := by
        intro e
        rw [e, hfresh] at hk
        exact Bool.false_ne_true hk
      rw [show applyOp db (.create data? user_id now)
          = (create_user db data? user_id now).2 from rfl, hdb,
        Store.lookup_insert_ne db u hne]
      exact ⟨rfl, rfl⟩
  | update user_id data? now =>
    rcases update_user_db_cases db user_id data? now with hdb | ⟨u, data, hu, hdb⟩
    · rw [show applyOp db (.update user_id data? now)
          = (update_user db user_id data? now).2 from rfl, hdb]
      exact ⟨rfl, rfl⟩
    · rw [show applyOp db (.update user_id data? now)
          = (update_user db user_id data? now).2 from rfl, hdb]
      by_cases he : k = user_id
      · subst he
        rw [Store.lookup_insert_self, hu]
        exact ⟨congrArg some (applyUpdate_created_at u data now),
               congrArg some (applyUpdate_id u data now)⟩
      · rw [Store.lookup_insert_ne db _ he]
        exact ⟨rfl, rfl⟩
  | delete user_id =>
    rcases delete_user_db_cases db user_id with hdb | hdb
    · rw [show applyOp db (.delete user_id)
          = (delete_user db user_id).2 from rfl, hdb]
      exact ⟨rfl, rfl⟩
    · rw [show applyOp db (.delete user_id)
          = (delete_user db user_id).2 from rfl, hdb] at hk' ⊢
      by_cases he : k = user_id
      · subst he
        have := Store.lookup_isSome_of_hasKey hk'
        rw [Store.lookup_erase_self] at this
        exact absurd this (by simp)
      · rw [Store.lookup_erase_ne db he]
        exact ⟨rfl, rfl⟩

theorem presentThrough_hasKey {db : Store} {ops : List Op} {k : String}
    (h : presentThrough db ops k = true) : db.hasKey k = true := by
  cases ops with
  | nil => simpa [presentThrough] using h
  | cons op ops =>
    have h' : db.hasKey k = true ∧ presentThrough (applyOp db op) ops k = true := by
      simpa [presentThrough] using h
    exact h'.1

end Backend

/-!
## Claim theorems
-/

open Backend Frontend

/-- C1: a create request whose body contains both `name` and `email`
inserts a new user whose `id` is the freshly generated identifier (not
equal to any id already in the store, by the uuid-freshness hypothesis),
whose `name` and `email` equal the request values, whose `role` equals
the request's `role` when present and `"user"` when absent, and whose
`created_at` is the current UTC time; the response is 201 with exactly
that created user. -/
theorem create_user_valid (db : Store) (data : Body) (user_id now n e : String)
    (hfresh : db.hasKey user_id = false)
    (hname : data.getField "name" = some n)
    (hemail : data.getField "email" = some e) :
    create_user db (some data) user_id now
      = ((.user (new_user data user_id now), 201),
         db ++ [(user_id, new_user data user_id now)])
    ∧ Store.lookup (db ++ [(user_id, new_user data user_id now)]) user_id
        = some (new_user data user_id now)
    ∧ (new_user data user_id now).id = user_id
    ∧ (new_user data user_id now).name = n
    ∧ (new_user data user_id now).email = e
    ∧ (new_user data user_id now).created_at = now
    ∧ (∀ r, data.getField "role" = some r → (new_user data user_id now).role = r)
    ∧ (data.getField "role" = none → (new_user data user_id now).role = "user") := by
  have hd : data.isEmpty = false := by
    cases data with
    | nil => simp [Body.getField] at hname
    | cons p l => rfl
  have h1 : data.hasField "name" = true := Body.hasField_of_getField hname
  have h2 : data.hasField "email" = true := Body.hasField_of_getField hemail
  have hfm : firstMissing data = none := by
    simp [firstMissing, List.find?_cons, h1, h2]
  refine ⟨?_, Store.lookup_append_fresh _ hfresh, rfl, ?_, ?_, rfl, ?_, ?_⟩
  · simp [create_user, hd, hfm, Store.insert, hfresh]
  · simp [new_user, hname]
  · simp [new_user, hemail]
  · intro r hr
    simp [new_user, hr]
  · intro hr
    simp [new_user, hr]

/-- Witness for C1 at a concrete store, body, id and timestamp. -/
theorem create_user_valid_witness :
    create_user users_db (some [("name", "Alice"), ("email", "alice@x.com")])
        "u3" "2025-06-01T00:00:00"
      = ((.user (new_user [("name", "Alice"), ("email", "alice@x.com")]
            "u3" "2025-06-01T00:00:00"), 201),
         users_db ++ [("u3", new_user [("name", "Alice"), ("email", "alice@x.com")]
            "u3" "2025-06-01T00:00:00")]) :=
  (create_user_valid users_db [("name", "Alice"), ("email", "alice@x.com")]
    "u3" "2025-06-01T00:00:00" "Alice" "alice@x.com"
    (by decide) (by decide) (by decide)).1

/-- C2: a create request missing `name` or `email` yields 400 with
`Missing required field: <field>` for the first missing field scanning
`name` then `email`, and leaves the store unchanged (same mapping, hence
same count). -/
theorem create_user_missing_field (db : Store) (data : Body)
    (user_id now : String)
    (hne : data ≠ [])
    (hmiss : data.hasField "name" = false ∨ data.hasField "email" = false) :
    create_user db (some data) user_id now
      = ((.err ("Missing required field: "
            ++ (if data.hasField "name" then "email" else "name")), 400), db)
    ∧ (create_user db (some data) user_id now).2.count = db.count := by
  have hd : data.isEmpty = false := by
    cases data with
    | nil => exact absurd rfl hne
    | cons p l => rfl
  have hmain : create_user db (some data) user_id now
      = ((.err ("Missing required field: "
          ++ (if data.hasField "name" then "email" else "name")), 400), db) := by
    by_cases h1 : data.hasField "name"
    · have h2 : data.hasField "email" = false := by
        rcases hmiss with h | h
        · rw [h1] at h
          exact absurd h (by simp)
        · exact h
      have hfm : firstMissing data = some "email" := by
        simp [firstMissing, List.find?_cons, h1, h2]
      simp [create_user, hd, hfm, h1]
    · have h1' : data.hasField "name" = false := by simpa using h1
      have hfm : firstMissing data = some "name" := by
        simp [firstMissing, List.find?_cons, h1']
      simp [create_user, hd, hfm, h1']
  exact ⟨hmain, by rw [hmain]⟩

/-- Witness for C2 at a concrete store and body missing `name`. -/
theorem create_user_missing_field_witness :
    create_user users_db (some [("email", "a@x.com")]) "u3" "T"
      = ((.err "Missing required field: name", 400), users_db) :=
  (create_user_missing_field users_db [("email", "a@x.com")] "u3" "T"
    (by decide) (.inl (by decide))).1

/-- C4: deleting an id present in the store removes it (a subsequent GET
of that id answers 404 `User not found`), answers 200 with the removal
message and the removed record, and the removed record's `id` equals the
requested id whenever every stored record carries its own key as `id`. -/
theorem delete_user_existing (db : Store) (user_id : String) (u : User)
    (hu : db.lookup user_id = some u) :
    delete_user db user_id
      = ((.deleted "User deleted successfully" u, 200), db.erase user_id)
    ∧ get_user (db.erase user_id) user_id = (.err "User not found", 404)
    ∧ (db.all (fun p => p.2.id == p.1) = true → u.id = user_id) := by
  refine ⟨by simp [Backend.delete_user, hu],
    by simp [get_user, Store.lookup_erase_self], ?_⟩
  intro hall
  unfold Store.lookup at hu
  rcases Option.map_eq_some'.1 hu with ⟨p, hp, hv⟩
  have hkey : p.1 = user_id := by simpa using List.find?_some hp
  have hid : p.2.id = p.1 := by
    simpa using List.all_eq_true.1 hall p (List.mem_of_find?_eq_some hp)
  rw [← hv, hid, hkey]

/-- Witness for C4: deleting seeded user `"1"`. -/
theorem delete_user_existing_witness :
    delete_user users_db "1"
      = ((.deleted "User deleted successfully"
            { id := "1", name := "John Doe", email := "john@example.com",
              role := "admin", created_at := "2025-01-01T10:00:00Z" }, 200),
         users_db.erase "1")
    ∧ get_user (users_db.erase "1") "1" = (.err "User not found", 404) :=
  ⟨(delete_user_existing users_db "1"
      { id := "1", name := "John Doe", email := "john@example.com",
        role := "admin", created_at := "2025-01-01T10:00:00Z" }
      (by decide)).1,
   (delete_user_existing users_db "1"
      { id := "1", name := "John Doe", email := "john@example.com",
        role := "admin", created_at := "2025-01-01T10:00:00Z" }
      (by decide)).2.1⟩

/-- C5: deleting an id absent from the store answers 404
`User not found` and leaves the store unchanged, so deleting it twice in
a row gives the identical 404 response and the identical state both
times. -/
theorem delete_user_nonexistent (db : Store) (user_id : String)
    (h : db.hasKey user_id = false) :
    delete_user db user_id = ((.err "User not found", 404), db)
    ∧ delete_user (delete_user db user_id).2 user_id
        = ((.err "User not found", 404), db) := by
  have hlook : db.lookup user_id = none := Store.lookup_eq_none h
  have h1 : delete_user db user_id = ((.err "User not found", 404), db) := by
    simp [Backend.delete_user, hlook]
  exact ⟨h1, by rw [h1]; simp [Backend.delete_user, hlook]⟩

/-- Witness for C5 at the seed store and an absent id. -/
theorem delete_user_nonexistent_witness :
    delete_user users_db "zzz" = ((.err "User not found", 404), users_db)
    ∧ delete_user (delete_user users_db "zzz").2 "zzz"
        = ((.err "User not found", 404), users_db) :=
  delete_user_nonexistent users_db "zzz" (by decide)

/-- C9: a present but empty JSON object body is treated exactly like a
missing body by both `POST /api/users` and `PUT /api/users/{id}` on an
existing id: the response is 400 `No data provided` and the store is
unchanged, so an empty object can neither create a user nor stamp
`updated_at`. -/
theorem empty_body_rejected (db : Store) (user_id create_id now now2 : String)
    (u : User) (hu : db.lookup user_id = some u) :
    create_user db (some []) create_id now = ((.err "No data provided", 400), db)
    ∧ create_user db none create_id now = ((.err "No data provided", 400), db)
    ∧ update_user db user_id (some []) now2 = ((.err "No data provided", 400), db)
    ∧ update_user db user_id none now2 = ((.err "No data provided", 400), db) := by
  refine ⟨rfl, rfl, ?_, ?_⟩ <;> simp [update_user, hu]

/-- Witness for C9 at the seed store and its user `"1"`. -/
theorem empty_body_rejected_witness :
    create_user users_db (some []) "u3" "T" = ((.err "No data provided", 400), users_db)
    ∧ create_user users_db none "u3" "T" = ((.err "No data provided", 400), users_db)
    ∧ update_user users_db "1" (some []) "T2" = ((.err "No data provided", 400), users_db)
    ∧ update_user users_db "1" none "T2" = ((.err "No data provided", 400), users_db) :=
  empty_body_rejected users_db "1" "u3" "T" "T2"
    { id := "1", name := "John Doe", email := "john@example.com",
      role := "admin", created_at := "2025-01-01T10:00:00Z" }
    (by decide)

/-- C3: a `PUT` on an existing id whose body contains only `name`
replaces the stored `name`, stamps `updated_at`, and keeps `email`,
`role`, `id` and `created_at` unchanged; the response is 200 with the
full updated user and no other id's record changes.  More generally the
field-overwrite loop touches exactly the fields among
`{name, email, role}` present in the body (plus `updated_at`). -/
theorem update_user_name_only (db : Store) (user_id x now : String) (u : User)
    (hu : db.lookup user_id = some u) :
    update_user db user_id (some [("name", x)]) now
      = ((.user { u with name := x, updated_at := some now }, 200),
         db.insert user_id { u with name := x, updated_at := some now })
    ∧ (db.insert user_id { u with name := x, updated_at := some now }).lookup
        user_id = some { u with name := x, updated_at := some now }
    ∧ (∀ k, k ≠ user_id →
        (db.insert user_id { u with name := x, updated_at := some now }).lookup k
          = db.lookup k)
    ∧ (∀ data : Body,
        (applyUpdate u data now).id = u.id
        ∧ (applyUpdate u data now).created_at = u.created_at
        ∧ (applyUpdate u data now).updated_at = some now
        ∧ (data.getField "name" = none → (applyUpdate u data now).name = u.name)
        ∧ (data.getField "email" = none → (applyUpdate u data now).email = u.email)
        ∧ (data.getField "role" = none → (applyUpdate u data now).role = u.role)
        ∧ (∀ v, data.getField "name" = some v → (applyUpdate u data now).name = v)
        ∧ (∀ v, data.getField "email" = some v → (applyUpdate u data now).email = v)
        ∧ (∀ v, data.getField "role" = some v → (applyUpdate u data now).role = v)) := by
  refine ⟨?_, Store.lookup_insert_self db user_id _,
    fun k hk => Store.lookup_insert_ne db _ hk, fun data => ?_⟩
  · simp only [update_user, hu]
    rfl
  · refine ⟨applyUpdate_id u data now, applyUpdate_created_at u data now,
      applyUpdate_updated_at u data now, ?_, ?_, ?_, ?_, ?_, ?_⟩
    · intro h
      unfold applyUpdate
      rw [h]
      all_goals cases data.getField "email" <;> cases data.getField "role" <;> rfl
    · intro h
      unfold applyUpdate
      rw [h]
      all_goals cases data.getField "name" <;> cases data.getField "role" <;> rfl
    · intro h
      unfold applyUpdate
      rw [h]
      all_goals cases data.getField "name" <;> cases data.getField "email" <;> rfl
    · intro v h
      unfold applyUpdate
      rw [h]
      all_goals cases data.getField "email" <;> cases data.getField "role" <;> rfl
    · intro v h
      unfold applyUpdate
      rw [h]
      all_goals cases data.getField "name" <;> cases data.getField "role" <;> rfl
    · intro v h
      unfold applyUpdate
      rw [h]

/-- Witness for C3: renaming seeded user `"1"`. -/
theorem update_user_name_only_witness :
    update_user users_db "1" (some [("name", "Johnny")]) "2025-06-01T00:00:00"
      = ((.user { id := "1", name := "Johnny", email := "john@example.com",
                  role := "admin", created_at := "2025-01-01T10:00:00Z",
                  updated_at := some "2025-06-01T00:00:00" }, 200),
         users_db.insert "1"
           { id := "1", name := "Johnny", email := "john@example.com",
             role := "admin", created_at := "2025-01-01T10:00:00Z",
             updated_at := some "2025-06-01T00:00:00" }) :=
  (update_user_name_only users_db "1" "Johnny" "2025-06-01T00:00:00"
    { id := "1", name := "John Doe", email := "john@example.com",
      role := "admin", created_at := "2025-01-01T10:00:00Z" }
    (by decide)).1

/-- C6: over any sequence of create, update and delete requests in which
every create draws a fresh uuid, each user that remains in the store
keeps the `created_at` (and the `id`) it was given when it was created
or seeded: the final record under its key agrees with the initial one on
both fields. -/
theorem run_preserves_created_at (db : Store) (ops : List Backend.Op)
    (k : String)
    (hf : freshRun db ops = true)
    (hp : presentThrough db ops k = true) :
    ((run db ops).lookup k).map User.created_at
        = (db.lookup k).map User.created_at
    ∧ ((run db ops).lookup k).map User.id = (db.lookup k).map User.id := by
  induction ops generalizing db with
  | nil => exact ⟨rfl, rfl⟩
  | cons op ops ih =>
    have hf' : freshOk db op = true ∧ freshRun (applyOp db op) ops = true := by
      simpa [freshRun] using hf
    have hp' : db.hasKey k = true ∧ presentThrough (applyOp db op) ops k = true := by
      simpa [presentThrough] using hp
    have hk1 : (applyOp db op).hasKey k = true := presentThrough_hasKey hp'.2
    have step := lookup_applyOp_frame db op k hf'.1 hp'.1 hk1
    have rest := ih (applyOp db op) hf'.2 hp'.2
    exact ⟨(show run db (op :: ops) = run (applyOp db op) ops from rfl) ▸
             rest.1.trans step.1,
           (show run db (op :: ops) = run (applyOp db op) ops from rfl) ▸
             rest.2.trans step.2⟩

/-- Witness for C6: a create, an update of user `"1"` and a delete of
user `"2"` preserve user `"1"`'s `created_at` and `id`. -/
theorem run_preserves_created_at_witness :
    ((run users_db
        [.create (some [("name", "A"), ("email", "a@x.com")]) "u9" "T1",
         .update "1" (some [("name", "Johnny")]) "T2",
         .delete "2"]).lookup "1").map User.created_at
      = ((users_db.lookup "1")).map User.created_at
    ∧ ((run users_db
        [.create (some [("name", "A"), ("email", "a@x.com")]) "u9" "T1",
         .update "1" (some [("name", "Johnny")]) "T2",
         .delete "2"]).lookup "1").map User.id
      = ((users_db.lookup "1")).map User.id :=
  run_preserves_created_at users_db
    [.create (some [("name", "A"), ("email", "a@x.com")]) "u9" "T1",
     .update "1" (some [("name", "Johnny")]) "T2",
     .delete "2"] "1" (by decide) (by decide)

/-- C7: when all three backend calls of a dashboard render fail (network
error, timeout or non-2xx, i.e. the helper hands back status 500), the
page still renders with status 200, an empty users list, absent stats
and the offline backend indicator — never a 5xx. -/
theorem dashboard_degrades (u s h : HttpOutcome) (msg mt : Option String)
    (hu : (call_backend_api u).2 = 500)
    (hs : (call_backend_api s).2 = 500)
    (hh : (call_backend_api h).2 = 500) :
    dashboard u s h msg mt
      = (⟨[], none, "🔴 Offline", "🟢 Online", msg, mt.getD "success"⟩, 200) := by
  simp [dashboard, hu, hs, hh]

/-- Witness for C7: all three calls are connection failures. -/
theorem dashboard_degrades_witness :
    dashboard (.failure "conn") (.failure "conn") (.failure "conn") none none
      = (⟨[], none, "🔴 Offline", "🟢 Online", none, "success"⟩, 200) :=
  dashboard_degrades (.failure "conn") (.failure "conn") (.failure "conn")
    none none rfl rfl rfl

set_option maxRecDepth 4000 in
/-- C8, counterexample to the claim as stated: the backend rejects the
create with 400 and the JSON body `{"error": "Missing required field:
name"}`, yet the danger flash message does not contain that backend
error string — it carries the HTTP exception text instead, because
`call_backend_api` replaced the backend body. -/
theorem add_user_counterexample :
    (Frontend.add_user "Ann" "ann@example.com" "user"
        (.response 400 (.err "Missing required field: name")
          "400 Client Error: BAD REQUEST for url: http://localhost:8086/api/users")).message_type
      = "danger"
    ∧ Frontend.containsSub
        (Frontend.add_user "Ann" "ann@example.com" "user"
          (.response 400 (.err "Missing required field: name")
            "400 Client Error: BAD REQUEST for url: http://localhost:8086/api/users")).message
        "Missing required field: name" = false := by
  constructor <;> decide

/-- C8 as amended: on a backend 201 the handler redirects with the
success message; otherwise it redirects with a danger message containing
the `error` value of the payload handed back by `call_backend_api` (for
a backend non-2xx that value is the HTTP exception text, not the
backend's own JSON error body), or `Unknown error` when that payload has
no `error` field. -/
theorem add_user_flash (name email role : String) (o : HttpOutcome) :
    ((call_backend_api o).2 = 201 →
      Frontend.add_user name email role o
        = ⟨"/", "User \x27" ++ name ++ "\x27 added successfully!", "success"⟩)
    ∧ ((call_backend_api o).2 ≠ 201 →
      Frontend.add_user name email role o
        = ⟨"/", "Failed to add user: " ++ getErrorField (call_backend_api o).1,
           "danger"⟩
      ∧ containsSub (Frontend.add_user name email role o).message
          (getErrorField (call_backend_api o).1) = true)
    ∧ (∀ s body excText, 400 ≤ s → s < 600 →
        getErrorField (call_backend_api (.response s body excText)).1 = excText) := by
  refine ⟨fun h => ?_, fun h => ?_, fun s body excText h4 h6 => ?_⟩
  · simp [Frontend.add_user, h]
  · have hb : ((call_backend_api o).2 == 201) = false := by
      simpa using h
    have heq : Frontend.add_user name email role o
        = ⟨"/", "Failed to add user: " ++ getErrorField (call_backend_api o).1,
           "danger"⟩ := by
      simp [Frontend.add_user, hb]
    refine ⟨heq, ?_⟩
    rw [heq]
    unfold containsSub
    apply decide_eq_true
    exact ⟨("Failed to add user: ").data, [],
      by simp [String.data_append]⟩
  · simp only [call_backend_api]
    rw [if_pos ⟨h4, h6⟩]
    rfl

/-- Witness for C8's amended theorem: a timed-out create call. -/
theorem add_user_flash_witness :
    (call_backend_api (.failure "timeout")).2 ≠ 201
    ∧ Frontend.add_user "Ann" "ann@example.com" "user" (.failure "timeout")
        = ⟨"/", "Failed to add user: timeout", "danger"⟩ :=
  ⟨by decide,
   ((add_user_flash "Ann" "ann@example.com" "user" (.failure "timeout")).2.1
     (by decide)).1⟩

/-- C10: `call_backend_api` collapses a transport failure, and every
response whose status `raise_for_status()` rejects (the range that
covers every non-2xx status the backend emits: its create answers only
201 or 400 and its delete only 200 or 404), into the pair
`({"error": <exception string>}, 500)`, discarding the backend's status
and JSON body; hence a frontend delete handler observes the HTTP exception
text, never the backend's own status code or error message. -/
theorem call_backend_api_collapses :
    (∀ msg, call_backend_api (.failure msg) = (.err msg, 500))
    ∧ (∀ s body excText, 400 ≤ s → s < 600 →
        call_backend_api (.response s body excText) = (.err excText, 500))
    ∧ (∀ s body body' excText, 400 ≤ s → s < 600 →
        call_backend_api (.response s body excText)
          = call_backend_api (.response s body' excText))
    ∧ (∀ db data? user_id now,
        (Backend.create_user db data? user_id now).1.2 = 201
        ∨ (Backend.create_user db data? user_id now).1.2 = 400)
    ∧ (∀ db user_id,
        (Backend.delete_user db user_id).1.2 = 200
        ∨ (Backend.delete_user db user_id).1.2 = 404)
    ∧ (∀ s body excText, 400 ≤ s → s < 600 →
        Frontend.delete_user (.response s body excText)
          = ⟨"/", "Failed to delete user: " ++ excText, "danger"⟩) := by
  refine ⟨fun msg => rfl,
    fun s body excText h4 h6 => ?_,
    fun s body body' excText h4 h6 => ?_,
    fun db data? user_id now => ?_,
    fun db user_id => ?_,
    fun s body excText h4 h6 => ?_⟩
  · simp only [call_backend_api]
    rw [if_pos ⟨h4, h6⟩]
  · simp only [call_backend_api]
    rw [if_pos ⟨h4, h6⟩, if_pos ⟨h4, h6⟩]
  · cases data? with
    | none => exact .inr rfl
    | some data =>
      unfold Backend.create_user
      by_cases hd : data.isEmpty
      · exact .inr (by simp [hd])
      · cases hfm : firstMissing data with
        | some f => exact .inr (by simp [hd, hfm])
        | none => exact .inl (by simp [hd, hfm])
  · unfold Backend.delete_user
    cases db.lookup user_id with
    | none => exact .inr rfl
    | some u => exact .inl rfl
  · have hcall : call_backend_api (.response s body excText)
        = (.err excText, 500) := by
      simp only [call_backend_api]
      rw [if_pos ⟨h4, h6⟩]
    simp [Frontend.delete_user, hcall, getErrorField]

/-- Witness for C10 at a backend 404 delete rejection. -/
theorem call_backend_api_collapses_witness :
    call_backend_api (.failure "boom") = (.err "boom", 500)
    ∧ call_backend_api
        (.response 404 (.err "User not found") "404 Client Error")
        = (.err "404 Client Error", 500)
    ∧ Frontend.delete_user
        (.response 404 (.err "User not found") "404 Client Error")
        = ⟨"/", "Failed to delete user: 404 Client Error", "danger"⟩ :=
  ⟨call_backend_api_collapses.1 "boom",
   call_backend_api_collapses.2.1 404 (.err "User not found")
     "404 Client Error" (by decide) (by decide),
   call_backend_api_collapses.2.2.2.2.2 404 (.err "User not found")
     "404 Client Error" (by decide) (by decide)⟩
